import Mathlib

/-
Verification of the ZeroMQ-based distributed in-memory connector/server
subsystem (`proxystore/connectors/dim/zmqstream.py`) against its design
specification.  The Python module is shallowly embedded: byte payloads are
lists of naturals, the server's `dict[str, bytes | ProxyStream]` store is an
association list, Python exceptions become an explicit error type, and
fallible operations return `Except`.  The connector's network layer
(serialize / chunk / send / recv) is modelled by function composition with a
request handler: the real deployment instantiates the handler with
`ZeroMQServer.handle_rpc`.
-/

namespace ZmqStream

/-- Byte payloads (Python `bytes`) as lists of naturals. -/
abbrev Bytes := List Nat

/-- The `DIMKey` value type from `proxystore.connectors.dim.models`
(fields as constructed in `zmqstream.py`: `dim_type`, `obj_id`, `size`,
`peer_host`, `peer_port`, `stream_id`). -/
structure DIMKey where
  dim_type : String
  obj_id : String
  size : Nat
  peer_host : String
  peer_port : Nat
  stream_id : Option String := none
deriving DecidableEq

/-- Python exceptions that the embedded code can raise. -/
inductive PyErr where
  | keyError : String → PyErr
  | assertionError : String → PyErr
  | attributeError : String → PyErr
  | invalidStateError : String → PyErr
deriving DecidableEq

/-- Whether an error is the spec's `InvalidStateError`. -/
def PyErr.is_invalid_state : PyErr → Bool
  | .invalidStateError _ => true
  | _ => false

/-- The `RPC` request value type from `proxystore.connectors.dim.models`:
operation name, key, optional payload, optional client id. -/
structure RPC where
  operation : String
  key : DIMKey
  data : Option Bytes := none
  client_id : Option String := none
deriving DecidableEq

/-- Modelled from the spec: the `ProxyStream` class from
`proxystore.streaming` (its source file is not part of this snapshot; only
`zmqstream.py` calls it).  Per the spec's Stream data model it is an
append-only ordered sequence of object ids (`proxy_uuids`, the attribute
name used by `ZeroMQServer.evict`) with per-client read cursors and an
`ended` flag. -/
structure ProxyStream where
  proxy_uuids : List String := []
  cursors : List (Option String × Nat) := []
  ended : Bool := false
deriving DecidableEq

/-- Modelled from the spec: `append(object_id)` adds an identifier to the
ordered sequence and fails with `InvalidStateError` if the stream already
ended. -/
def ProxyStream.append (s : ProxyStream) (id : String) : Except PyErr ProxyStream :=
  if s.ended then .error (.invalidStateError "cannot append to an ended stream")
  else .ok { s with proxy_uuids := s.proxy_uuids ++ [id] }

/-- Modelled from the spec: `end()` marks the stream ended; idempotent.
(`zmqstream.py` calls it `end_stream`.) -/
def ProxyStream.end_stream (s : ProxyStream) : ProxyStream :=
  { s with ended := true }

/-- Look up a client's cursor. -/
def ProxyStream.cursor (s : ProxyStream) (client : Option String) : Option Nat :=
  (s.cursors.find? fun p => p.1 = client).map Prod.snd

/-- Modelled from the spec: `register_client` initializes a client's cursor
at 0 if not already tracked; idempotent.  (`zmqstream.py` calls it
`connect`.) -/
def ProxyStream.connect (s : ProxyStream) (client : Option String) : ProxyStream :=
  match s.cursor client with
  | some _ => s
  | none => { s with cursors := s.cursors ++ [(client, 0)] }

/-- Modelled from the spec: `next(client_id)` returns the next unread object
id for the client, advancing its cursor; `none` stands for the states in
which no id is produced (cursor caught up: blocked while open, or the
exhausted sentinel once ended). -/
def ProxyStream.next_data (s : ProxyStream) (client : Option String) :
    ProxyStream × Option String :=
  let idx := (s.cursor client).getD 0
  match s.proxy_uuids.get? idx with
  | some uid =>
      ({ s with cursors := (s.cursors.filter fun p => p.1 ≠ client) ++ [(client, idx + 1)] },
        some uid)
  | none => (s, none)

/-- A value stored in the server's `self.data` dictionary: either raw bytes
or a `ProxyStream` object (the dictionary is shared by both). -/
inductive StoreVal where
  | bytes : Bytes → StoreVal
  | stream : ProxyStream → StoreVal
deriving DecidableEq

/-- The server's `self.data: dict[str, bytes | ProxyStream]` as an
association list. -/
abbrev Store := List (String × StoreVal)

/-- Dictionary lookup (`d.get(k)` / `d[k]` membership). -/
def storeGet : Store → String → Option StoreVal
  | [], _ => none
  | p :: rest, k => if p.1 = k then some p.2 else storeGet rest k

/-- Dictionary removal (`d.pop(k, None)`): removes the binding for `k`. -/
def storeErase : Store → String → Store
  | [], _ => []
  | p :: rest, k => if p.1 = k then storeErase rest k else p :: storeErase rest k

/-- Dictionary assignment (`d[k] = v`).  (A Python dict updates the binding
in place; prepending the new binding after erasing the old one is
`storeGet`-equivalent, and `storeGet` is the store's only observer.) -/
def storeSet (d : Store) (k : String) (v : StoreVal) : Store :=
  (k, v) :: storeErase d k

/-- The `RPCResponse` value type from `proxystore.connectors.dim.models`:
operation name, key, optional returned value, optional existence bit,
optional server-side exception.  (`data` can dynamically carry whatever the
server's `dict.get` produced, hence `Option StoreVal`; the source's `exists`
field is spelled `exists_` because `exists` is reserved in Lean.) -/
structure RPCResponse where
  operation : String
  key : DIMKey
  data : Option StoreVal := none
  exists_ : Option Bool := none
  exception : Option PyErr := none
deriving DecidableEq

/-- The `ZeroMQServer` state: just its `self.data` store. -/
structure ZeroMQServer where
  data : Store
deriving DecidableEq

/-- `ZeroMQServer.evict`: if the key has a `stream_id`, look the stream up by
unchecked indexing (`self.data[key.stream_id]`, a `KeyError` when absent, an
`AttributeError` when the entry is raw bytes), end it in place, pop every id
in its `proxy_uuids`, and finally pop the key's own `obj_id` with a default
(never failing). -/
def ZeroMQServer.evict (st : ZeroMQServer) (key : DIMKey) : Except PyErr ZeroMQServer :=
  match key.stream_id with
  | some sid =>
      match storeGet st.data sid with
      | none => .error (.keyError sid)
      | some (.bytes _) => .error (.attributeError "bytes object has no attribute end_stream")
      | some (.stream s) =>
          let s' := s.end_stream
          let d1 := storeSet st.data sid (.stream s')
          let d2 := s'.proxy_uuids.foldl storeErase d1
          .ok ⟨storeErase d2 key.obj_id⟩
  | none => .ok ⟨storeErase st.data key.obj_id⟩

/-- `ZeroMQServer.exists`: membership of `key.obj_id` in `self.data` (spelled
`exists_` because `exists` is reserved in Lean). -/
def ZeroMQServer.exists_ (st : ZeroMQServer) (key : DIMKey) : Bool :=
  (storeGet st.data key.obj_id).isSome

/-- `ZeroMQServer.put`: if the key has a `stream_id`, lazily create or fetch
the stream (an `AttributeError` if the fetched entry is raw bytes), append
the key's `obj_id` to it (mutating the stored stream object), then
unconditionally store the payload under `key.obj_id`. -/
def ZeroMQServer.put (st : ZeroMQServer) (key : DIMKey) (data : Bytes) :
    Except PyErr ZeroMQServer :=
  match key.stream_id with
  | some sid =>
      match storeGet st.data sid with
      | none =>
          match ProxyStream.append {} key.obj_id with
          | .ok s' =>
              .ok ⟨storeSet (storeSet st.data sid (.stream s')) key.obj_id (.bytes data)⟩
          | .error e => .error e
      | some (.stream s) =>
          match s.append key.obj_id with
          | .ok s' =>
              .ok ⟨storeSet (storeSet st.data sid (.stream s')) key.obj_id (.bytes data)⟩
          | .error e => .error e
      | some (.bytes _) => .error (.attributeError "bytes object has no attribute append")
  | none => .ok ⟨storeSet st.data key.obj_id (.bytes data)⟩

/-- `ZeroMQServer.get`: if the key has a `stream_id`, look the stream up by
unchecked indexing (`KeyError` when absent, `AttributeError` when the entry
is raw bytes), register the client, advance its cursor via `next_data`, and
return `self.data.get` of the produced id; otherwise `self.data.get` of
`key.obj_id` directly. -/
def ZeroMQServer.get (st : ZeroMQServer) (key : DIMKey) (host_id : Option String) :
    Except PyErr (ZeroMQServer × Option StoreVal) :=
  match key.stream_id with
  | some sid =>
      match storeGet st.data sid with
      | none => .error (.keyError sid)
      | some (.bytes _) => .error (.attributeError "bytes object has no attribute connect")
      | some (.stream s) =>
          let s1 := s.connect host_id
          let p := s1.next_data host_id
          let d1 := storeSet st.data sid (.stream p.1)
          match p.2 with
          | some uid => .ok (⟨d1⟩, storeGet d1 uid)
          | none => .ok (⟨d1⟩, none)
  | none => .ok (st, storeGet st.data key.obj_id)

/-- The body of `ZeroMQServer.handle_rpc`'s `try` block: dispatch on the
request's `operation` string; a `put` with no `data` fails the
`assert rpc.data is not None`; an unknown operation raises
`AssertionError (Unreachable)`. -/
def ZeroMQServer.dispatch (st : ZeroMQServer) (rpc : RPC) :
    Except PyErr (ZeroMQServer × RPCResponse) :=
  if rpc.operation = "exists" then
    .ok (st, { operation := "exists", key := rpc.key, exists_ := some (st.exists_ rpc.key) })
  else if rpc.operation = "evict" then
    match st.evict rpc.key with
    | .ok st' => .ok (st', { operation := "evict", key := rpc.key })
    | .error e => .error e
  else if rpc.operation = "get" then
    match st.get rpc.key rpc.client_id with
    | .ok p => .ok (p.1, { operation := "get", key := rpc.key, data := p.2 })
    | .error e => .error e
  else if rpc.operation = "put" then
    match rpc.data with
    | none => .error (.assertionError "rpc.data is not None")
    | some d =>
        match st.put rpc.key d with
        | .ok st' => .ok (st', { operation := "put", key := rpc.key })
        | .error e => .error e
  else .error (.assertionError "Unreachable.")

/-- `ZeroMQServer.handle_rpc`: run the dispatched handler; any exception it
raises is caught and wrapped into the response's `exception` field. -/
def ZeroMQServer.handle_rpc (st : ZeroMQServer) (rpc : RPC) : ZeroMQServer × RPCResponse :=
  match st.dispatch rpc with
  | .ok p => p
  | .error e => (st, { operation := rpc.operation, key := rpc.key, exception := some e })

/-- `MAX_CHUNK_LENGTH_DEFAULT = 64 * 1024`. -/
def MAX_CHUNK_LENGTH_DEFAULT : Nat := 64 * 1024

/-- The environment a `ZeroMQConnector.__init__` call observes: the IP
resolved from a named interface, the IP of the local hostname, the fresh
`uuid4` client id, whether `wait_for_server` succeeds (a live local server
answered the ping within the timeout), and the pid of the server process
that `spawn_server` would produce otherwise. -/
structure NetEnv where
  ip_of_interface : String → String
  hostname_ip : String
  client_id : String
  probe_ok : Bool
  spawned_pid : Nat

/-- The `ZeroMQConnector` state after `__init__` (timeouts are modelled as
rationals; only pass-through equality of the value matters here). -/
structure ZeroMQConnector where
  saved_address : Option String
  saved_interface : Option String
  client_id : String
  port : Nat
  chunk_length : Nat
  timeout : Rat
  address : String
  server : Option Nat
deriving DecidableEq

/-- `ZeroMQConnector.__init__`: record the raw `address`/`interface`
arguments (`self._address`/`self._interface`), default `chunk_length`,
resolve the bind address (explicit address, else interface lookup, else
hostname resolution), then probe: on success the spawned-server handle is
`None`; on `ServerTimeoutError` it is the spawned process. -/
def ZeroMQConnector.init (env : NetEnv) (port : Nat) (address : Option String := none)
    (interface : Option String := none) (chunk_length : Option Nat := none)
    (timeout : Rat := 1) : ZeroMQConnector :=
  let addr :=
    match address with
    | some a => a
    | none =>
        match interface with
        | some i => env.ip_of_interface i
        | none => env.hostname_ip
  { saved_address := address
    saved_interface := interface
    client_id := env.client_id
    port := port
    chunk_length := (chunk_length.getD MAX_CHUNK_LENGTH_DEFAULT)
    timeout := timeout
    address := addr
    server := if env.probe_ok then none else some env.spawned_pid }

/-- A value in the configuration dictionary returned by
`ZeroMQConnector.config`. -/
inductive ConfigVal where
  | str : String → ConfigVal
  | nat : Nat → ConfigVal
  | rat : Rat → ConfigVal
  | null : ConfigVal
deriving DecidableEq

/-- Encode an optional string configuration entry. -/
def ConfigVal.ofOptStr : Option String → ConfigVal
  | some s => .str s
  | none => .null

/-- Decode an optional string configuration entry. -/
def ConfigVal.toOptStr : ConfigVal → Option (Option String)
  | .str s => some (some s)
  | .null => some none
  | _ => none

/-- `ZeroMQConnector.config`: the dictionary
`{address, interface, port, chunk_length, timeout}` built from
`self._address`, `self._interface`, `self.port`, `self.chunk_length`,
`self.timeout`. -/
def ZeroMQConnector.config (c : ZeroMQConnector) : List (String × ConfigVal) :=
  [("address", ConfigVal.ofOptStr c.saved_address),
   ("interface", ConfigVal.ofOptStr c.saved_interface),
   ("port", ConfigVal.nat c.port),
   ("chunk_length", ConfigVal.nat c.chunk_length),
   ("timeout", ConfigVal.rat c.timeout)]

/-- Dictionary lookup in a configuration. -/
def configGet (cfg : List (String × ConfigVal)) (k : String) : Option ConfigVal :=
  (cfg.find? fun p => p.1 = k).map Prod.snd

/-- `ZeroMQConnector.from_config`: `cls(**config)` — read the five named
arguments out of the dictionary and call `__init__` with them (`none` when
the dictionary does not bind them all to suitably typed values). -/
def ZeroMQConnector.from_config (env : NetEnv) (cfg : List (String × ConfigVal)) :
    Option ZeroMQConnector :=
  match (configGet cfg "address").bind ConfigVal.toOptStr,
      (configGet cfg "interface").bind ConfigVal.toOptStr,
      configGet cfg "port", configGet cfg "chunk_length", configGet cfg "timeout" with
  | some addr, some intf, some (.nat port), some (.nat cl), some (.rat t) =>
      some (ZeroMQConnector.init env port addr intf (some cl) t)
  | _, _, _, _, _ => none

/-- An observable side effect of `ZeroMQConnector.close`. -/
inductive CloseAction where
  | terminate_server : Nat → CloseAction
  | join_server : CloseAction
  | close_socket : CloseAction
  | term_context : CloseAction
deriving DecidableEq

/-- `ZeroMQConnector.close`: if `kill_server` and this instance spawned the
server, terminate and join it; always close the socket and terminate the
ZMQ context. -/
def ZeroMQConnector.close (c : ZeroMQConnector) (kill_server : Bool := true) :
    List CloseAction :=
  (if kill_server then
    match c.server with
    | some pid => [CloseAction.terminate_server pid, CloseAction.join_server]
    | none => []
  else []) ++ [CloseAction.close_socket, CloseAction.term_context]

/-- `ZeroMQConnector._send_rpcs`: send each RPC in turn to the server and
wait for its response before sending the next; raise the response's
exception if present, then assert that the response echoes the request's
operation and key.  The transport plus remote server is abstracted as a
`handler` function on a server state `σ`; the real deployment instantiates
it with `ZeroMQServer.handle_rpc`. -/
def ZeroMQConnector.send_rpcs {σ : Type} (handler : σ → RPC → σ × RPCResponse) :
    σ → List RPC → Except PyErr (σ × List RPCResponse)
  | st, [] => .ok (st, [])
  | st, rpc :: rest =>
      let p := handler st rpc
      match p.2.exception with
      | some e => .error e
      | none =>
          if p.2.operation = rpc.operation then
            if p.2.key = rpc.key then
              match ZeroMQConnector.send_rpcs handler p.1 rest with
              | .ok q => .ok (q.1, p.2 :: q.2)
              | .error e => .error e
            else .error (.assertionError "rpc.key == response.key")
          else .error (.assertionError "rpc.operation == response.operation")

/-- The RPC built by `ZeroMQConnector.evict`. -/
def ZeroMQConnector.evict_rpc (c : ZeroMQConnector) (key : DIMKey) : RPC :=
  { operation := "evict", key := key, client_id := some c.client_id }

/-- `ZeroMQConnector.evict`. -/
def ZeroMQConnector.evict {σ : Type} (c : ZeroMQConnector)
    (handler : σ → RPC → σ × RPCResponse) (st : σ) (key : DIMKey) : Except PyErr σ :=
  match ZeroMQConnector.send_rpcs handler st [c.evict_rpc key] with
  | .ok p => .ok p.1
  | .error e => .error e

/-- The RPC built by `ZeroMQConnector.exists` (no `client_id`). -/
def ZeroMQConnector.exists_rpc (key : DIMKey) : RPC :=
  { operation := "exists", key := key }

/-- `ZeroMQConnector.exists` (spelled `exists_`): single RPC, assert the
response's `exists` field is present, return it. -/
def ZeroMQConnector.exists_ {σ : Type} (_c : ZeroMQConnector)
    (handler : σ → RPC → σ × RPCResponse) (st : σ) (key : DIMKey) :
    Except PyErr (σ × Bool) :=
  match ZeroMQConnector.send_rpcs handler st [ZeroMQConnector.exists_rpc key] with
  | .ok (st', [r]) =>
      match r.exists_ with
      | some b => .ok (st', b)
      | none => .error (.assertionError "response.exists is not None")
  | .ok _ => .error (.assertionError "one response expected")
  | .error e => .error e

/-- The RPC built by `ZeroMQConnector.get` and `ZeroMQConnector.get_batch`. -/
def ZeroMQConnector.get_rpc (c : ZeroMQConnector) (key : DIMKey) : RPC :=
  { operation := "get", key := key, client_id := some c.client_id }

/-- `ZeroMQConnector.get`: its `key` parameter is `DIMKey | None`; on `None`
the RPC is built but `_send_rpcs` crashes reading `rpc.key.peer_host`
(`AttributeError`), modelled as the immediate error. -/
def ZeroMQConnector.get {σ : Type} (c : ZeroMQConnector)
    (handler : σ → RPC → σ × RPCResponse) (st : σ) (key : Option DIMKey) :
    Except PyErr (σ × Option StoreVal) :=
  match key with
  | none => .error (.attributeError "NoneType object has no attribute peer_host")
  | some k =>
      match ZeroMQConnector.send_rpcs handler st [c.get_rpc k] with
      | .ok (st', [r]) => .ok (st', r.data)
      | .ok _ => .error (.assertionError "one response expected")
      | .error e => .error e

/-- `ZeroMQConnector.get_batch`: one `get` RPC per key, responses mapped to
their `data` fields in order. -/
def ZeroMQConnector.get_batch {σ : Type} (c : ZeroMQConnector)
    (handler : σ → RPC → σ × RPCResponse) (st : σ) (keys : List DIMKey) :
    Except PyErr (σ × List (Option StoreVal)) :=
  match ZeroMQConnector.send_rpcs handler st (keys.map fun k => c.get_rpc k) with
  | .ok (st', resps) => .ok (st', resps.map RPCResponse.data)
  | .error e => .error e

/-- The `put` RPC built by `ZeroMQConnector.put` and
`ZeroMQConnector.put_batch`. -/
def ZeroMQConnector.put_rpc (key : DIMKey) (obj : Bytes) : RPC :=
  { operation := "put", key := key, data := some obj }

/-- The fresh key minted by `ZeroMQConnector.put` for payload `obj`:
`dim_type` `zmq`, a fresh `obj_id`, the payload's length, this connector's
address and port, and the `stream_id` inherited from the optional
caller-supplied key. -/
def ZeroMQConnector.data_key (c : ZeroMQConnector) (obj : Bytes) (fresh_id : String)
    (key : Option DIMKey) : DIMKey :=
  { dim_type := "zmq"
    obj_id := fresh_id
    size := obj.length
    peer_host := c.address
    peer_port := c.port
    stream_id := match key with
      | none => none
      | some k => k.stream_id }

/-- `ZeroMQConnector.put`: build `data_key` with a fresh `obj_id`, issue the
`put` RPC, and — as the source is written — `return key`, the caller's
argument (`None` when absent), not `data_key`. -/
def ZeroMQConnector.put {σ : Type} (c : ZeroMQConnector)
    (handler : σ → RPC → σ × RPCResponse) (st : σ) (obj : Bytes) (key : Option DIMKey)
    (fresh_id : String) : Except PyErr (σ × Option DIMKey) :=
  match ZeroMQConnector.send_rpcs handler st
      [ZeroMQConnector.put_rpc (c.data_key obj fresh_id key) obj] with
  | .ok p => .ok (p.1, key)
  | .error e => .error e

/-- The fresh keys minted by `ZeroMQConnector.put_batch`: one per payload, in
input order, each inheriting `key.stream_id` (reading the attribute fails
with `AttributeError` when `key` is `None`; see `put_batch`). -/
def ZeroMQConnector.put_batch_keys (c : ZeroMQConnector) :
    List Bytes → DIMKey → (Nat → String) → List DIMKey
  | [], _, _ => []
  | obj :: rest, key, fresh_ids =>
      { dim_type := "zmq"
        obj_id := fresh_ids 0
        size := obj.length
        peer_host := c.address
        peer_port := c.port
        stream_id := key.stream_id } ::
        ZeroMQConnector.put_batch_keys c rest key (fun n => fresh_ids (n + 1))

/-- The RPC list built by `ZeroMQConnector.put_batch`'s comprehension
`[RPC(put, key, obj) for key in keys for key, obj in zip(keys, objs)]`: the
outer iteration over `keys` only multiplies the inner `zip`, whose variables
shadow the outer `key`. -/
def ZeroMQConnector.put_batch_rpcs (keys : List DIMKey) (objs : List Bytes) : List RPC :=
  keys.flatMap fun _ => (keys.zip objs).map fun p => ZeroMQConnector.put_rpc p.1 p.2

/-- `ZeroMQConnector.put_batch`: mint the fresh keys, send the RPC list the
comprehension builds, and return the fresh keys; reading `key.stream_id`
fails with `AttributeError` when `key` is `None`. -/
def ZeroMQConnector.put_batch {σ : Type} (c : ZeroMQConnector)
    (handler : σ → RPC → σ × RPCResponse) (st : σ) (objs : List Bytes)
    (key : Option DIMKey) (fresh_ids : Nat → String) :
    Except PyErr (σ × List DIMKey) :=
  match key with
  | none => .error (.attributeError "NoneType object has no attribute stream_id")
  | some k =>
      let keys := c.put_batch_keys objs k fresh_ids
      match ZeroMQConnector.send_rpcs handler st
          (ZeroMQConnector.put_batch_rpcs keys objs) with
      | .ok p => .ok (p.1, keys)
      | .error e => .error e

theorem storeGet_erase_self (d : Store) (k : String) :
    storeGet (storeErase d k) k = none := by
  induction d with
  | nil => rfl
  | cons hd tl ih =>
      by_cases h : hd.1 = k
      · simpa [storeErase, h] using ih
      · simpa [storeGet, storeErase, h] using ih

theorem storeGet_erase_ne (d : Store) (k k' : String) (h : k' ≠ k) :
    storeGet (storeErase d k) k' = storeGet d k' := by
  induction d with
  | nil => rfl
  | cons hd tl ih =>
      by_cases hk : hd.1 = k
      · have hkk' : ¬(k = k') := fun hc => h hc.symm
        simpa [storeGet, storeErase, hk, hkk'] using ih
      · by_cases hk' : hd.1 = k'
        · simp [storeGet, storeErase, hk, hk', h]
        · simpa [storeGet, storeErase, hk, hk'] using ih

theorem storeGet_set_self (d : Store) (k : String) (v : StoreVal) :
    storeGet (storeSet d k v) k = some v := by
  simp [storeGet, storeSet]

theorem storeGet_set_ne (d : Store) (k k' : String) (v : StoreVal) (h : k' ≠ k) :
    storeGet (storeSet d k v) k' = storeGet d k' := by
  have hne : k ≠ k' := fun hc => h hc.symm
  simp only [storeGet, storeSet, hne, if_false]
  exact storeGet_erase_ne d k k' h

theorem storeGet_foldl_erase_none (ids : List String) (d : Store) (k : String)
    (h : storeGet d k = none) : storeGet (ids.foldl storeErase d) k = none := by
  induction ids generalizing d with
  | nil => simpa using h
  | cons hd tl ih =>
      refine ih (storeErase d hd) ?_
      by_cases hk : k = hd
      · rw [hk]
        exact storeGet_erase_self d hd
      · rw [storeGet_erase_ne d hd k hk]
        exact h

theorem storeGet_foldl_erase_of_mem (ids : List String) (d : Store) (k : String)
    (h : k ∈ ids) : storeGet (ids.foldl storeErase d) k = none := by
  induction ids generalizing d with
  | nil => cases h
  | cons hd tl ih =>
      rcases List.mem_cons.mp h with h1 | h1
      · refine storeGet_foldl_erase_none tl (storeErase d hd) k ?_
        rw [h1]
        exact storeGet_erase_self d hd
      · exact ih (storeErase d hd) h1

theorem storeGet_foldl_erase_of_not_mem (ids : List String) (d : Store) (k : String)
    (h : k ∉ ids) : storeGet (ids.foldl storeErase d) k = storeGet d k := by
  induction ids generalizing d with
  | nil => rfl
  | cons hd tl ih =>
      have h1 : k ≠ hd := fun hc => h (hc ▸ List.mem_cons_self hd tl)
      have h2 : k ∉ tl := fun hc => h (List.mem_cons_of_mem hd hc)
      rw [List.foldl_cons, ih (storeErase d hd) h2, storeGet_erase_ne d hd k h1]

theorem storeErase_of_get_none (d : Store) (k : String) (h : storeGet d k = none) :
    storeErase d k = d := by
  induction d with
  | nil => rfl
  | cons hd tl ih =>
      by_cases hk : hd.1 = k
      · exfalso
        simp [storeGet, hk] at h
      · have htl : storeGet tl k = none := by
          simpa [storeGet, hk] using h
        simp [storeErase, hk]
        exact ih htl

/-- C3: for every RPC request dispatched to one of the four handlers
(exists, evict, get, put), if the handler raises an exception `e`,
`handle_rpc` does not propagate it: it returns — leaving the store as it
was — a response whose operation and key equal the request's and whose
exception field holds `e`. -/
theorem handle_rpc_wraps_handler_exception (st : ZeroMQServer) (rpc : RPC) (e : PyErr)
    (_hop : rpc.operation = "exists" ∨ rpc.operation = "evict" ∨ rpc.operation = "get" ∨
      rpc.operation = "put")
    (h : st.dispatch rpc = .error e) :
    st.handle_rpc rpc =
      (st, { operation := rpc.operation, key := rpc.key, exception := some e }) := by
  simp [ZeroMQServer.handle_rpc, h]

/-- Witness for C3: a put RPC with no payload makes the put handler raise,
and `handle_rpc` wraps the error into the response for that same key. -/
theorem handle_rpc_wraps_handler_exception_witness :
    ZeroMQServer.handle_rpc ⟨[]⟩ ⟨"put", ⟨"zmq", "obj0", 0, "h", 1, none⟩, none, none⟩ =
      (⟨[]⟩, { operation := "put", key := ⟨"zmq", "obj0", 0, "h", 1, none⟩,
               exception := some (.assertionError "rpc.data is not None") }) :=
  handle_rpc_wraps_handler_exception ⟨[]⟩
    ⟨"put", ⟨"zmq", "obj0", 0, "h", 1, none⟩, none, none⟩
    (.assertionError "rpc.data is not None")
    (Or.inr (Or.inr (Or.inr rfl))) rfl

/-- C6 counterexample: on an empty server, a put RPC whose data field is
absent produces a response whose exception is an `AssertionError`, not the
`InvalidStateError` the claim names. -/
theorem put_without_data_not_invalid_state :
    ((ZeroMQServer.handle_rpc ⟨[]⟩ ⟨"put", ⟨"zmq", "x", 0, "h", 1, none⟩, none, none⟩).2.exception =
      some (.assertionError "rpc.data is not None")) ∧
    (((ZeroMQServer.handle_rpc ⟨[]⟩
        ⟨"put", ⟨"zmq", "x", 0, "h", 1, none⟩, none, none⟩).2.exception.map
      PyErr.is_invalid_state) = some false) :=
  ⟨rfl, rfl⟩

/-- C6 (amended): a put RPC whose data field is absent is malformed and
fails server-side with `AssertionError` (the server's
`assert rpc.data is not None`), surfaced as the exception field of the RPC
response delivered to the originating caller. -/
theorem put_without_data_assertion_error (st : ZeroMQServer) (k : DIMKey)
    (cid : Option String) :
    (st.handle_rpc ⟨"put", k, none, cid⟩).2 =
      { operation := "put", key := k,
        exception := some (PyErr.assertionError "rpc.data is not None") } :=
  rfl

/-- C10: with a key whose `stream_id` is set but names no stream in the
store, both `get` and `evict` fail with `KeyError` on that id — surfaced
through `handle_rpc` as the response's exception — instead of treating the
key as absent, whereas `evict` of an absent key with no `stream_id` succeeds
silently, leaving the store unchanged. -/
theorem stream_lookup_is_unchecked :
    (∀ (st : ZeroMQServer) (k : DIMKey) (sid : String) (cid : Option String),
      k.stream_id = some sid → storeGet st.data sid = none →
      (st.handle_rpc ⟨"get", k, none, cid⟩).2 =
        { operation := "get", key := k, exception := some (.keyError sid) } ∧
      (st.handle_rpc ⟨"evict", k, none, cid⟩).2 =
        { operation := "evict", key := k, exception := some (.keyError sid) }) ∧
    (∀ (st : ZeroMQServer) (k : DIMKey) (cid : Option String),
      k.stream_id = none → storeGet st.data k.obj_id = none →
      st.handle_rpc ⟨"evict", k, none, cid⟩ =
        (st, { operation := "evict", key := k })) := by
  constructor
  · intro st k sid cid hk hd
    constructor
    · simp [ZeroMQServer.handle_rpc, ZeroMQServer.dispatch, ZeroMQServer.get, hk, hd]
    · simp [ZeroMQServer.handle_rpc, ZeroMQServer.dispatch, ZeroMQServer.evict, hk, hd]
  · intro st k cid hk hd
    simp [ZeroMQServer.handle_rpc, ZeroMQServer.dispatch, ZeroMQServer.evict, hk,
      storeErase_of_get_none st.data k.obj_id hd]

/-- Witness for C10: on an empty server, get and evict of a key naming the
absent stream `s0` both report `KeyError s0`, while evict of a plain absent
key succeeds. -/
theorem stream_lookup_is_unchecked_witness :
    ((ZeroMQServer.handle_rpc ⟨[]⟩ ⟨"get", ⟨"zmq", "o1", 0, "h", 1, some "s0"⟩, none, none⟩).2 =
      { operation := "get", key := ⟨"zmq", "o1", 0, "h", 1, some "s0"⟩,
        exception := some (.keyError "s0") } ∧
     (ZeroMQServer.handle_rpc ⟨[]⟩ ⟨"evict", ⟨"zmq", "o1", 0, "h", 1, some "s0"⟩, none, none⟩).2 =
      { operation := "evict", key := ⟨"zmq", "o1", 0, "h", 1, some "s0"⟩,
        exception := some (.keyError "s0") }) ∧
    ZeroMQServer.handle_rpc ⟨[]⟩ ⟨"evict", ⟨"zmq", "o2", 0, "h", 1, none⟩, none, none⟩ =
      (⟨[]⟩, { operation := "evict", key := ⟨"zmq", "o2", 0, "h", 1, none⟩ }) :=
  ⟨stream_lookup_is_unchecked.1 ⟨[]⟩ ⟨"zmq", "o1", 0, "h", 1, some "s0"⟩ "s0" none rfl rfl,
   stream_lookup_is_unchecked.2 ⟨[]⟩ ⟨"zmq", "o2", 0, "h", 1, none⟩ none rfl rfl⟩

/-- C4: evicting a key whose `stream_id` names a stream present in the store
succeeds in one call, ends the stream, removes every packet object id the
stream recorded, and removes the entry under the key's own `obj_id`: `exists`
is false afterwards for the evicted key and for every key naming a
constituent packet id. -/
theorem evict_stream_cascades (st : ZeroMQServer) (k : DIMKey) (sid : String)
    (s : ProxyStream) (hk : k.stream_id = some sid)
    (hs : storeGet st.data sid = some (.stream s)) :
    ∃ st', st.evict k = .ok st' ∧
      st'.exists_ k = false ∧
      (∀ k' : DIMKey, k'.obj_id ∈ s.proxy_uuids → st'.exists_ k' = false) ∧
      storeGet st'.data k.obj_id = none ∧
      (storeGet st'.data sid = none ∨
        storeGet st'.data sid = some (.stream s.end_stream)) := by
  refine ⟨⟨storeErase
      (s.proxy_uuids.foldl storeErase (storeSet st.data sid (.stream s.end_stream)))
      k.obj_id⟩, ?_, ?_, ?_, ?_, ?_⟩
  · simp [ZeroMQServer.evict, hk, hs, ProxyStream.end_stream]
  · simp [ZeroMQServer.exists_, storeGet_erase_self]
  · intro k' hmem
    by_cases heq : k'.obj_id = k.obj_id
    · simp [ZeroMQServer.exists_, heq, storeGet_erase_self]
    · simp only [ZeroMQServer.exists_]
      rw [storeGet_erase_ne _ _ _ heq]
      rw [storeGet_foldl_erase_of_mem _ _ _ hmem]
      rfl
  · exact storeGet_erase_self _ _
  · by_cases h1 : sid = k.obj_id
    · left
      rw [h1, storeGet_erase_self]
    · rw [storeGet_erase_ne _ _ _ h1]
      by_cases h2 : sid ∈ s.proxy_uuids
      · left
        exact storeGet_foldl_erase_of_mem _ _ _ h2
      · right
        rw [storeGet_foldl_erase_of_not_mem _ _ _ h2, storeGet_set_self]

/-- Witness for C4: evicting the stream key `s0` (which recorded packets
`p1` and `p2`) empties the store of the stream entry and both packets. -/
theorem evict_stream_cascades_witness :
    ∃ st', ZeroMQServer.evict
        ⟨[("s0", .stream ⟨["p1", "p2"], [], false⟩), ("p1", .bytes [1]), ("p2", .bytes [2])]⟩
        ⟨"zmq", "s0", 0, "h", 1, some "s0"⟩ = .ok st' ∧
      st'.exists_ ⟨"zmq", "s0", 0, "h", 1, some "s0"⟩ = false ∧
      (∀ k' : DIMKey, k'.obj_id ∈ (⟨["p1", "p2"], [], false⟩ : ProxyStream).proxy_uuids →
        st'.exists_ k' = false) ∧
      storeGet st'.data "s0" = none ∧
      (storeGet st'.data "s0" = none ∨
        storeGet st'.data "s0" =
          some (.stream (ProxyStream.end_stream ⟨["p1", "p2"], [], false⟩))) :=
  evict_stream_cascades
    ⟨[("s0", .stream ⟨["p1", "p2"], [], false⟩), ("p1", .bytes [1]), ("p2", .bytes [2])]⟩
    ⟨"zmq", "s0", 0, "h", 1, some "s0"⟩ "s0" ⟨["p1", "p2"], [], false⟩ rfl rfl

/-- C9: streams and byte payloads share the single map `self.data`: after
any successful put whose key carries `stream_id` `sid`, `exists` answers
true for every key whose `obj_id` equals `sid`; and when nothing was stored
under `sid` beforehand (and the put's own fresh `obj_id` differs from
`sid`), the entry satisfying that membership check is the lazily created
stream object itself — no byte payload was ever stored under `sid`. -/
theorem put_stream_makes_stream_id_exist (st : ZeroMQServer) (k : DIMKey) (obj : Bytes)
    (sid : String) (st' : ZeroMQServer) (hk : k.stream_id = some sid)
    (hput : st.put k obj = .ok st') :
    (∀ k' : DIMKey, k'.obj_id = sid → st'.exists_ k' = true) ∧
    (storeGet st.data sid = none → k.obj_id ≠ sid →
      storeGet st'.data sid = some (.stream ⟨[k.obj_id], [], false⟩)) := by
  rcases hd : storeGet st.data sid with _ | v
  · have hst' : st' =
        ⟨storeSet (storeSet st.data sid (.stream ⟨[k.obj_id], [], false⟩))
          k.obj_id (.bytes obj)⟩ := by
      rw [ZeroMQServer.put, hk] at hput
      simp [hd, ProxyStream.append] at hput
      exact hput.symm
    subst hst'
    constructor
    · intro k' hk'
      by_cases heq : k'.obj_id = k.obj_id
      · simp [ZeroMQServer.exists_, heq, storeGet_set_self]
      · simp only [ZeroMQServer.exists_]
        rw [storeGet_set_ne _ _ _ _ heq, hk', storeGet_set_self]
        rfl
    · intro _ hne
      rw [storeGet_set_ne _ _ _ _ (fun hc => hne hc.symm), storeGet_set_self]
  · rcases v with b | s
    · rw [ZeroMQServer.put, hk] at hput
      simp [hd] at hput
    · rw [ZeroMQServer.put, hk] at hput
      by_cases hend : s.ended
      · simp [hd, ProxyStream.append, hend] at hput
      · have hst' : st' =
            ⟨storeSet (storeSet st.data sid
                (.stream ⟨s.proxy_uuids ++ [k.obj_id], s.cursors, false⟩))
              k.obj_id (.bytes obj)⟩ := by
          simp [hd, ProxyStream.append, hend] at hput
          exact hput.symm
        subst hst'
        constructor
        · intro k' hk'
          by_cases heq : k'.obj_id = k.obj_id
          · simp [ZeroMQServer.exists_, heq, storeGet_set_self]
          · simp only [ZeroMQServer.exists_]
            rw [storeGet_set_ne _ _ _ _ heq, hk', storeGet_set_self]
            rfl
        · intro habs
          simp [hd] at habs

/-- Witness for C9: a put of payload `[7]` under fresh id `p0` into stream
`s0` on an empty server makes `exists` true for a key whose `obj_id` is
`s0`, with the stored entry being the stream object. -/
theorem put_stream_makes_stream_id_exist_witness :
    (∀ k' : DIMKey, k'.obj_id = "s0" →
      ZeroMQServer.exists_
        ⟨[("p0", .bytes [7]), ("s0", .stream ⟨["p0"], [], false⟩)]⟩ k' = true) ∧
    (storeGet ([] : Store) "s0" = none → "p0" ≠ "s0" →
      storeGet ([("p0", .bytes [7]), ("s0", .stream ⟨["p0"], [], false⟩)] : Store) "s0" =
        some (.stream ⟨["p0"], [], false⟩)) :=
  put_stream_makes_stream_id_exist ⟨[]⟩ ⟨"zmq", "p0", 1, "h", 1, some "s0"⟩ [7] "s0"
    ⟨[("p0", .bytes [7]), ("s0", .stream ⟨["p0"], [], false⟩)]⟩ rfl rfl

/-- C1 (code evaluation): `put` with no caller-supplied key builds the fresh
`data_key`, issues the put RPC, and the server acknowledges by storing the
payload under the fresh id — but the call returns `None`, the caller's `key`
argument, not the freshly built key, so no subsequent `get` can use its
result. -/
theorem put_no_key_returns_none (c : ZeroMQConnector) (st : ZeroMQServer) (obj : Bytes)
    (fresh_id : String) :
    ZeroMQConnector.put c ZeroMQServer.handle_rpc st obj none fresh_id =
      .ok (⟨storeSet st.data fresh_id (.bytes obj)⟩, none) ∧
    (match ZeroMQConnector.put c ZeroMQServer.handle_rpc st obj none fresh_id with
      | .ok p => ZeroMQConnector.get c ZeroMQServer.handle_rpc p.1 p.2
      | .error e => .error e) =
      .error (.attributeError "NoneType object has no attribute peer_host") := by
  have h1 : ZeroMQConnector.put c ZeroMQServer.handle_rpc st obj none fresh_id =
      .ok (⟨storeSet st.data fresh_id (.bytes obj)⟩, none) := by
    simp [ZeroMQConnector.put, ZeroMQConnector.send_rpcs, ZeroMQConnector.put_rpc,
      ZeroMQConnector.data_key, ZeroMQServer.handle_rpc, ZeroMQServer.dispatch,
      ZeroMQServer.put]
  refine ⟨h1, ?_⟩
  rw [h1]
  rfl

/-- C2 (code evaluation): for a two-payload batch, the RPC list built by
`put_batch`'s doubly nested comprehension holds four put RPCs — each
payload's RPC issued once per key — instead of one RPC per payload. -/
theorem put_batch_two_payloads_four_rpcs :
    (ZeroMQConnector.put_batch_rpcs
      [⟨"zmq", "a", 1, "h", 1, none⟩, ⟨"zmq", "b", 1, "h", 1, none⟩]
      [[1], [2]]).length = 4 := rfl

theorem send_rpcs_head_exception {σ : Type} (handler : σ → RPC → σ × RPCResponse)
    (st : σ) (rpc : RPC) (rest : List RPC) (e : PyErr)
    (h : (handler st rpc).2.exception = some e) :
    ZeroMQConnector.send_rpcs handler st (rpc :: rest) = .error e := by
  simp [ZeroMQConnector.send_rpcs, h]

/-- C5: every connector operation — put, put_batch, get, get_batch, exists,
evict — re-raises a server-reported failure: whenever the response to the
(first) RPC the operation sends carries exception `e`, the call fails with
that same `e` rather than returning a success value that discards it. -/
theorem connector_propagates_server_exception :
    (∀ (σ : Type) (handler : σ → RPC → σ × RPCResponse) (c : ZeroMQConnector)
      (st : σ) (obj : Bytes) (key : Option DIMKey) (fid : String) (e : PyErr),
      (handler st (ZeroMQConnector.put_rpc (c.data_key obj fid key) obj)).2.exception =
        some e →
      ZeroMQConnector.put c handler st obj key fid = .error e) ∧
    (∀ (σ : Type) (handler : σ → RPC → σ × RPCResponse) (c : ZeroMQConnector)
      (st : σ) (obj0 : Bytes) (rest : List Bytes) (k : DIMKey) (fids : Nat → String)
      (e : PyErr),
      (handler st (ZeroMQConnector.put_rpc
        ⟨"zmq", fids 0, obj0.length, c.address, c.port, k.stream_id⟩ obj0)).2.exception =
        some e →
      ZeroMQConnector.put_batch c handler st (obj0 :: rest) (some k) fids = .error e) ∧
    (∀ (σ : Type) (handler : σ → RPC → σ × RPCResponse) (c : ZeroMQConnector)
      (st : σ) (k : DIMKey) (e : PyErr),
      (handler st (c.get_rpc k)).2.exception = some e →
      ZeroMQConnector.get c handler st (some k) = .error e) ∧
    (∀ (σ : Type) (handler : σ → RPC → σ × RPCResponse) (c : ZeroMQConnector)
      (st : σ) (k : DIMKey) (ks : List DIMKey) (e : PyErr),
      (handler st (c.get_rpc k)).2.exception = some e →
      ZeroMQConnector.get_batch c handler st (k :: ks) = .error e) ∧
    (∀ (σ : Type) (handler : σ → RPC → σ × RPCResponse) (c : ZeroMQConnector)
      (st : σ) (k : DIMKey) (e : PyErr),
      (handler st (ZeroMQConnector.exists_rpc k)).2.exception = some e →
      ZeroMQConnector.exists_ c handler st k = .error e) ∧
    (∀ (σ : Type) (handler : σ → RPC → σ × RPCResponse) (c : ZeroMQConnector)
      (st : σ) (k : DIMKey) (e : PyErr),
      (handler st (c.evict_rpc k)).2.exception = some e →
      ZeroMQConnector.evict c handler st k = .error e) := by
  refine ⟨?_, ?_, ?_, ?_, ?_, ?_⟩
  · intro σ handler c st obj key fid e h
    simp only [ZeroMQConnector.put]
    rw [send_rpcs_head_exception handler st _ [] e h]
  · intro σ handler c st obj0 rest k fids e h
    simp only [ZeroMQConnector.put_batch, ZeroMQConnector.put_batch_keys,
      ZeroMQConnector.put_batch_rpcs, List.flatMap_cons, List.zip_cons_cons,
      List.map_cons, List.cons_append]
    rw [send_rpcs_head_exception handler st _ _ e h]
  · intro σ handler c st k e h
    simp only [ZeroMQConnector.get]
    rw [send_rpcs_head_exception handler st _ [] e h]
  · intro σ handler c st k ks e h
    simp only [ZeroMQConnector.get_batch, List.map_cons]
    rw [send_rpcs_head_exception handler st _ _ e h]
  · intro σ handler c st k e h
    simp only [ZeroMQConnector.exists_]
    rw [send_rpcs_head_exception handler st _ [] e h]
  · intro σ handler c st k e h
    simp only [ZeroMQConnector.evict]
    rw [send_rpcs_head_exception handler st _ [] e h]

/-- Witness for C5: against a handler that echoes the request and reports
`KeyError boom` — the situation the repository exercises with a mocked
response — each of the six operations fails with exactly that error. -/
theorem connector_propagates_server_exception_witness :
    (ZeroMQConnector.put ⟨none, none, "cid", 1, 2, 1, "h", none⟩
      (fun (_ : Unit) (rpc : RPC) =>
        ((), ⟨rpc.operation, rpc.key, none, none, some (.keyError "boom")⟩))
      () [1] none "f" = .error (.keyError "boom")) ∧
    (ZeroMQConnector.put_batch ⟨none, none, "cid", 1, 2, 1, "h", none⟩
      (fun (_ : Unit) (rpc : RPC) =>
        ((), ⟨rpc.operation, rpc.key, none, none, some (.keyError "boom")⟩))
      () [[1], [2]] (some ⟨"zmq", "kk", 0, "h", 1, none⟩) (fun _ => "f") =
      .error (.keyError "boom")) ∧
    (ZeroMQConnector.get ⟨none, none, "cid", 1, 2, 1, "h", none⟩
      (fun (_ : Unit) (rpc : RPC) =>
        ((), ⟨rpc.operation, rpc.key, none, none, some (.keyError "boom")⟩))
      () (some ⟨"zmq", "kk", 0, "h", 1, none⟩) = .error (.keyError "boom")) ∧
    (ZeroMQConnector.get_batch ⟨none, none, "cid", 1, 2, 1, "h", none⟩
      (fun (_ : Unit) (rpc : RPC) =>
        ((), ⟨rpc.operation, rpc.key, none, none, some (.keyError "boom")⟩))
      () [⟨"zmq", "kk", 0, "h", 1, none⟩] = .error (.keyError "boom")) ∧
    (ZeroMQConnector.exists_ ⟨none, none, "cid", 1, 2, 1, "h", none⟩
      (fun (_ : Unit) (rpc : RPC) =>
        ((), ⟨rpc.operation, rpc.key, none, none, some (.keyError "boom")⟩))
      () ⟨"zmq", "kk", 0, "h", 1, none⟩ = .error (.keyError "boom")) ∧
    (ZeroMQConnector.evict ⟨none, none, "cid", 1, 2, 1, "h", none⟩
      (fun (_ : Unit) (rpc : RPC) =>
        ((), ⟨rpc.operation, rpc.key, none, none, some (.keyError "boom")⟩))
      () ⟨"zmq", "kk", 0, "h", 1, none⟩ = .error (.keyError "boom")) :=
  ⟨connector_propagates_server_exception.1 Unit _ _ () [1] none "f" _ rfl,
   connector_propagates_server_exception.2.1 Unit _ _ () [1] [[2]] _ _ _ rfl,
   connector_propagates_server_exception.2.2.1 Unit _ _ () _ _ rfl,
   connector_propagates_server_exception.2.2.2.1 Unit _ _ () _ [] _ rfl,
   connector_propagates_server_exception.2.2.2.2.1 Unit _ _ () _ _ rfl,
   connector_propagates_server_exception.2.2.2.2.2 Unit _ _ () _ _ rfl⟩

/-- C7: `config` returns a record with exactly the keys address, interface,
port, chunk_length, timeout, and `from_config` applied to it constructs a
connector whose five parameters equal the original's. -/
theorem config_from_config_round_trip (c : ZeroMQConnector) (env : NetEnv) :
    c.config.map Prod.fst = ["address", "interface", "port", "chunk_length", "timeout"] ∧
    ∃ c', ZeroMQConnector.from_config env c.config = some c' ∧
      c'.saved_address = c.saved_address ∧ c'.saved_interface = c.saved_interface ∧
      c'.port = c.port ∧ c'.chunk_length = c.chunk_length ∧ c'.timeout = c.timeout := by
  constructor
  · simp [ZeroMQConnector.config]
  · rcases c with ⟨a, i, cid, p, cl, t, ad, sv⟩
    cases a <;> cases i <;>
      exact ⟨_, rfl, rfl, rfl, rfl, rfl, rfl⟩

/-- C8: a connector whose liveness probe succeeded at construction has no
spawned-server handle, and its `close`, for either value of `kill_server`,
only closes the local socket and terminates the local ZMQ context — it never
terminates the shared server. -/
theorem close_never_kills_attached_server (env : NetEnv) (port : Nat)
    (address interface : Option String) (chunk_length : Option Nat) (timeout : Rat)
    (hprobe : env.probe_ok = true) :
    (ZeroMQConnector.init env port address interface chunk_length timeout).server = none ∧
    ∀ kill_server : Bool,
      (ZeroMQConnector.init env port address interface chunk_length timeout).close
        kill_server = [CloseAction.close_socket, CloseAction.term_context] := by
  constructor
  · simp [ZeroMQConnector.init, hprobe]
  · intro ks
    cases ks <;> simp [ZeroMQConnector.close, ZeroMQConnector.init, hprobe]

/-- Witness for C8: with a probe that finds a live server, a concretely
constructed connector holds no server handle and its close (under both
`kill_server` values) performs only the two local teardown actions. -/
theorem close_never_kills_attached_server_witness :
    (ZeroMQConnector.init ⟨fun _ => "ip0", "hip", "cid", true, 7⟩ 5555 none none none 1).server =
      none ∧
    ∀ kill_server : Bool,
      (ZeroMQConnector.init ⟨fun _ => "ip0", "hip", "cid", true, 7⟩ 5555 none none none 1).close
        kill_server = [CloseAction.close_socket, CloseAction.term_context] :=
  close_never_kills_attached_server ⟨fun _ => "ip0", "hip", "cid", true, 7⟩ 5555
    none none none 1 rfl

end ZmqStream
